import Mathlib

/-!
# Verification of the agentic-mentorloop-ts core

Shallow embedding of the TypeScript sources of the mentor-loop agent:

* `src/rag/tips.ts` (`TipsRAG`): lexical vectorisation, cosine similarity,
  top-K ranking;
* `src/tools/ragTips.ts` (`MentorTips`): tip retrieval over the tip corpus;
* `src/tools/csvPulse.ts` (`EngagementPulse`): check-in recency and message
  balance analytics;
* `src/tools/composeNudge.ts` (`ComposeNudge`): nudge message composition;
* `src/brain/deterministic.ts` (`DeterministicBrain`): keyword routing;
* `src/cli.ts` (`main`): the agent-loop dispatch.

Conventions of the embedding:

* JS `Map<string, number>` feature vectors become a `Finset` of keys plus a
  count function that vanishes off the keys (`FeatureVec`).
* JS floating-point scores become real numbers (`ℝ`); `Math.sqrt` becomes
  `Real.sqrt`.  Integer comparisons against `1.5 * n` and `n / 2` are
  embedded by the exact integer reformulations `2 * m > 3 * n` and
  `2 * m > n`.
* File reads (`fs.readFileSync`) are external collaborators: every tool
  takes its loaded records as an argument, with `Option`/`Except` encoding
  a data-load fault where the TypeScript try/catch is relevant.
* `Math.random()`-driven index selection is embedded as an explicitly
  injected index argument.
* JS `Array.prototype.sort` (stable since ES2019) is embedded as
  `List.insertionSort`, which is likewise a stable sort; a stable sort
  with respect to a total preorder is unique, so the two agree.
-/

namespace MentorLoop

/-- ASCII word character: the JS regex class `\w` = `[A-Za-z0-9_]`. -/
def isWordChar (c : Char) : Bool :=
  c.isAlpha || c.isDigit || c == '_'

/-- `TipsRAG.vectorise`, tokenisation part (tips.ts lines 10-12):
`text.toLowerCase().replace(/[^\w\s]/g, ' ').split(/\s+/)` with empty
chunks dropped (`filter(w => w.length > 0)`). -/
def tokenize (text : String) : List String :=
  let cleaned := (text.data.map Char.toLower).map fun c =>
    if isWordChar c || c.isWhitespace then c else ' '
  ((cleaned.splitOnP Char.isWhitespace).filter (· ≠ [])).map fun l => String.mk l

/-- The stop-word set of `TipsRAG` (tips.ts lines 2-6), with the duplicate
`"the"` kept as written; list membership is insensitive to the duplicate,
like JS `Set` construction. -/
def stopWords : List String :=
  ["a", "an", "and", "are", "as", "at", "be", "by", "for", "from",
   "has", "he", "in", "is", "it", "its", "of", "on", "that", "the",
   "to", "was", "will", "with", "the", "this", "your", "you", "our"]

/-- Unigram feature emission (tips.ts lines 16-20): every token of length
`> 2` that is not a stop word. -/
def unigramsOf (words : List String) : List String :=
  words.filter fun w => decide (w.length > 2) && !stopWords.contains w

/-- Bigram feature emission (tips.ts lines 23-28): for every adjacent pair
of the unfiltered token list in which neither word is a stop word, emit
`words[i] ++ "_" ++ words[i+1]`.  No length filter is applied here. -/
def bigramsOf (words : List String) : List String :=
  (words.zip words.tail).filterMap fun p =>
    if !stopWords.contains p.1 && !stopWords.contains p.2 then
      some (p.1 ++ "_" ++ p.2)
    else none

/-- The multiset of features emitted by `TipsRAG.vectorise`: unigrams
followed by bigrams. -/
def featureListOf (text : String) : List String :=
  unigramsOf (tokenize text) ++ bigramsOf (tokenize text)

/-- A JS `Map<string, number>` feature vector: a finite key set and a count
function that is zero off the keys (`Map.get` of a missing key reads as 0
in `cosineSimilarity`). -/
structure FeatureVec where
  keys : Finset String
  count : String → ℕ
  count_eq_zero : ∀ w, w ∉ keys → count w = 0

/-- `TipsRAG.vectorise` (tips.ts lines 9-31): the final map holds each
emitted feature with its number of emissions. -/
def vectorise (text : String) : FeatureVec where
  keys := (featureListOf text).toFinset
  count w := (featureListOf text).count w
  count_eq_zero := fun w hw => List.count_eq_zero.mpr (by simpa using hw)

/-- `allWords` of `TipsRAG.cosineSimilarity` (tips.ts line 35): the union
of both key sets. -/
def allWords (vec1 vec2 : FeatureVec) : Finset String :=
  vec1.keys ∪ vec2.keys

/-- One accumulated self-product sum of `cosineSimilarity` (`norm1` /
`norm2` at tips.ts lines 44-45), taken over a given word set. -/
noncomputable def sqNormOver (s : Finset String) (v : FeatureVec) : ℝ :=
  ∑ w ∈ s, (v.count w : ℝ) * (v.count w : ℝ)

/-- The accumulated `dotProduct` of `cosineSimilarity` (tips.ts line 43). -/
noncomputable def dotProduct (vec1 vec2 : FeatureVec) : ℝ :=
  ∑ w ∈ allWords vec1 vec2, (vec1.count w : ℝ) * (vec2.count w : ℝ)

/-- `TipsRAG.cosineSimilarity` (tips.ts lines 34-50). -/
noncomputable def cosineSimilarity (vec1 vec2 : FeatureVec) : ℝ :=
  if sqNormOver (allWords vec1 vec2) vec1 = 0 ∨ sqNormOver (allWords vec1 vec2) vec2 = 0 then 0
  else dotProduct vec1 vec2 /
    (Real.sqrt (sqNormOver (allWords vec1 vec2) vec1) *
      Real.sqrt (sqNormOver (allWords vec1 vec2) vec2))

/-- The Euclidean magnitude of a vector restricted to its own keys. -/
noncomputable def magnitude (v : FeatureVec) : ℝ :=
  Real.sqrt (sqNormOver v.keys v)

/-- A retrieval document (`findSimilar`'s `documents` element); a missing
`tags` field is embedded as `[]`. -/
structure RagDoc where
  id : String
  text : String
  tags : List String
deriving DecidableEq

/-- A scored retrieval candidate (`findSimilar`'s result element). -/
structure RagHit where
  id : String
  score : ℝ
  text : String
  tags : List String

/-- The sort relation of the comparator `(a, b) => b.score - a.score`
(tips.ts line 61): descending score. -/
def hitGE (a b : RagHit) : Prop := b.score ≤ a.score

noncomputable instance : DecidableRel hitGE := fun _ _ => Real.decidableLE _ _

/-- The `scores` array of `TipsRAG.findSimilar` (tips.ts lines 55-59), in
document order. -/
noncomputable def docScores (query : String) (documents : List RagDoc) : List RagHit :=
  documents.map fun doc =>
    ⟨doc.id, cosineSimilarity (vectorise query) (vectorise doc.text), doc.text, doc.tags⟩

/-- `TipsRAG.findSimilar` (tips.ts lines 52-63): score every document
against the query, sort by descending score (JS `Array.prototype.sort` is
stable, embedded as the stable `List.insertionSort`), truncate to `topK`. -/
noncomputable def findSimilar (query : String) (documents : List RagDoc) (topK : ℕ) :
    List RagHit :=
  ((docScores query documents).insertionSort hitGE).take topK

/-- A tip record of `tips.json`. -/
structure Tip where
  tip_id : String
  situation : String
  text : String
deriving DecidableEq

/-- `tip.situation.split(/[,_\s]+/).filter(t => t.length > 0)` (ragTips.ts). -/
def splitTags (situation : String) : List String :=
  ((situation.data.splitOnP fun c => c == ',' || c == '_' || c.isWhitespace).filter
    (· ≠ [])).map fun l => String.mk l

/-- The discriminated result of `MentorTips.retrieve`. -/
inductive TipsResult where
  | tips (hits : List RagHit)
  | error (message hint : String)

/-- `parseFloat(score.toFixed(2))`: round to two decimal places at the
retrieval boundary. -/
noncomputable def roundTo2 (x : ℝ) : ℝ := (round (x * 100) : ℤ) / 100

/-- `MentorTips.retrieve` (ragTips.ts): the data load is an external
collaborator, so it is injected as an `Except` whose error carries the
thrown message; the catch handler turns it into the error result.  The
non-null assertion `tips.find(t => t.tip_id === r.id)!` always succeeds
because every result id originates from `tips`; the embedding reads the
found tip's text with an (unreachable) empty-string default. -/
noncomputable def retrieve (load : Except String (List Tip)) (query : String) : TipsResult :=
  match load with
  | .error msg => .error msg "Check that tips.json exists and is properly formatted"
  | .ok tips =>
    let documents := tips.map fun tip =>
      RagDoc.mk tip.tip_id (tip.situation ++ " " ++ tip.text) (splitTags tip.situation)
    let results := findSimilar query documents 2
    if results.length = 0 then .tips []
    else
      .tips (results.map fun r =>
        RagHit.mk r.id (roundTo2 r.score)
          (((tips.find? fun t => t.tip_id == r.id).map Tip.text).getD "") r.tags)

/-- A check-in record; `new Date(timestamp).getTime()` is embedded as the
millisecond count itself. -/
structure CheckIn where
  pair_id : String
  timestamp : Int
  mentee_score : Int
  mentor_score : Int
  notes : String
deriving DecidableEq

/-- A message record (timestamp kept as raw text: `csvPulse.ts` never
parses it, balance uses file order). -/
structure MessageRec where
  pair_id : String
  timestamp : String
  author_role : String
  channel : String
  text : String
deriving DecidableEq

/-- A user record of `users.csv`. -/
structure UserRec where
  user_id : String
  role : String
  email : String
  timezone : String
  first_name : String
  joined_at : String
deriving DecidableEq

/-- A pairing record of `pairings.csv`. -/
structure Pairing where
  pair_id : String
  mentor_id : String
  mentee_id : String
  programme_id : String
  started_at : String
deriving DecidableEq

/-- A programme record of `programmes.json`. -/
structure Programme where
  programme_id : String
  name : String
  cadence_days : ℕ
  success_markers : List String
deriving DecidableEq

/-- The per-pair entry of the `pairStats` map (csvPulse.ts line 88). -/
structure PulseStats where
  lastCheckin : Int
  balance : String
  daysSince : Int
deriving DecidableEq

/-- One day in milliseconds: `1000 * 60 * 60 * 24`. -/
def msPerDay : Int := 1000 * 60 * 60 * 24

/-- `Math.floor((now.getTime() - checkinDate.getTime()) / (1000*60*60*24))`
(csvPulse.ts line 96): floor division on the millisecond difference. -/
def daysSinceOf (now ts : Int) : Int := (now - ts).fdiv msPerDay

/-- JS `Map.set`: update in place when the key exists (keeping its
insertion position), append otherwise. -/
def setAssoc {β : Type} (ps : List (String × β)) (k : String) (v : β) : List (String × β) :=
  match ps with
  | [] => [(k, v)]
  | (k', v') :: rest => if k' = k then (k, v) :: rest else (k', v') :: setAssoc rest k v

/-- JS `Map.get` on an association list. -/
def lookupAssoc {β : Type} (ps : List (String × β)) (k : String) : Option β :=
  (ps.find? fun e => e.1 = k).map Prod.snd

/-- One iteration of the check-in analysis loop (csvPulse.ts lines 91-99):
keep the entry with the strictly greatest timestamp. -/
def checkinStep (now : Int) (ps : List (String × PulseStats)) (c : CheckIn) :
    List (String × PulseStats) :=
  match lookupAssoc ps c.pair_id with
  | none => setAssoc ps c.pair_id ⟨c.timestamp, "balanced", daysSinceOf now c.timestamp⟩
  | some st =>
    if st.lastCheckin < c.timestamp then
      setAssoc ps c.pair_id ⟨c.timestamp, "balanced", daysSinceOf now c.timestamp⟩
    else ps

/-- The `pairStats` map after the check-in loop. -/
def pairStatsOf (now : Int) (checkins : List CheckIn) : List (String × PulseStats) :=
  checkins.foldl (checkinStep now) []

/-- One iteration of the message-grouping loop (csvPulse.ts lines 103-108). -/
def groupStep (groups : List (String × List MessageRec)) (m : MessageRec) :
    List (String × List MessageRec) :=
  match groups with
  | [] => [(m.pair_id, [m])]
  | (k, msgs) :: rest =>
    if k = m.pair_id then (k, msgs ++ [m]) :: rest else (k, msgs) :: groupStep rest m

/-- The `pairMessages` map: messages grouped by pair in first-occurrence
order. -/
def groupByPair (messages : List MessageRec) : List (String × List MessageRec) :=
  messages.foldl groupStep []

/-- `msgs.slice(-50)`: the last `n` elements. -/
def takeLast {α : Type} (n : ℕ) (l : List α) : List α := l.drop (l.length - n)

/-- The balance classification of one pair's messages (csvPulse.ts lines
111-120).  `mentorCount > menteeCount * 1.5` on JS floats is exactly
`2 * mentorCount > 3 * menteeCount` on integer counts. -/
def balanceOf (msgs : List MessageRec) : String :=
  let recent := takeLast 50 msgs
  let mentorCount := (recent.filter fun m => m.author_role == "mentor").length
  let menteeCount := (recent.filter fun m => m.author_role == "mentee").length
  if 2 * mentorCount > 3 * menteeCount then "mentor_heavy"
  else if 2 * menteeCount > 3 * mentorCount then "mentee_heavy"
  else "balanced"

/-- The balance-update loop (csvPulse.ts lines 110-125): pairs without a
recency entry are skipped. -/
def applyBalances (ps : List (String × PulseStats))
    (groups : List (String × List MessageRec)) : List (String × PulseStats) :=
  groups.foldl (fun acc g =>
    match lookupAssoc acc g.1 with
    | some st => setAssoc acc g.1 { st with balance := balanceOf g.2 }
    | none => acc) ps

/-- The `dormantPairs` array (csvPulse.ts lines 128-133): entries of
`pairStats` with `daysSince > 14`, in map order. -/
def dormantPairsOf (ps : List (String × PulseStats)) : List (String × Int) :=
  (ps.filter fun e => Decidable.decide (e.2.daysSince > 14)).map fun e => (e.1, e.2.daysSince)

/-- A resolved dormant-mentee entry of the list result. -/
structure DormantMentee where
  mentee_id : String
  first_name : String
  pair_id : String
  last_checkin_days : Int
deriving DecidableEq

/-- The discriminated result of `EngagementPulse.run`. -/
inductive EngagementResult where
  | summary (sample : ℕ) (dormant : ℕ) (balance : String) (last_checkin_days : Int)
  | list (dormant_count : ℕ) (mentees : List DormantMentee)
  | error (message hint : String)
deriving DecidableEq

/-- The options record of `EngagementPulse.run`. -/
structure EngagementOptions where
  mode : Option String := none
  limit : Option ℕ := none
  prompt : Option String := none

/-- `options?.mode || 'summary'`: `undefined` and the empty string are
falsy. -/
def effMode (o : EngagementOptions) : String :=
  match o.mode with
  | some s => if s = "" then "summary" else s
  | none => "summary"

/-- `options?.limit || 5`: `undefined` and `0` are falsy. -/
def effLimit (o : EngagementOptions) : ℕ :=
  match o.limit with
  | some n => if n = 0 then 5 else n
  | none => 5

/-- The four record collections read by `EngagementPulse`. -/
structure PulseData where
  checkins : List CheckIn
  messages : List MessageRec
  users : List UserRec
  pairings : List Pairing

/-- The sort relation of `(a, b) => b.daysSince - a.daysSince`
(csvPulse.ts line 137): descending days. -/
def dormantSortRel (a b : String × Int) : Prop := b.2 ≤ a.2

instance : DecidableRel dormantSortRel := fun _ _ => Int.decLe _ _

/-- Resolution of one dormant pair to mentee information (csvPulse.ts
lines 140-158); `mentee?.first_name || 'Unknown'` treats an empty name as
falsy. -/
def resolveMentee (users : List UserRec) (pairings : List Pairing) (e : String × Int) :
    DormantMentee :=
  match pairings.find? fun p => p.pair_id == e.1 with
  | none => ⟨"unknown", "Unknown", e.1, e.2⟩
  | some pairing =>
    let firstName :=
      match users.find? fun u => u.user_id == pairing.mentee_id with
      | some mentee => if mentee.first_name = "" then "Unknown" else mentee.first_name
      | none => "Unknown"
    ⟨pairing.mentee_id, firstName, e.1, e.2⟩

/-- The `maxDays` accumulation of summary mode (csvPulse.ts lines 167-170). -/
def maxDaysOf (ps : List (String × PulseStats)) : Int :=
  ps.foldl (fun m e => if e.2.daysSince > m then e.2.daysSince else m) 0

/-- The majority balance of summary mode (csvPulse.ts lines 173-178);
`count > balances.length / 2` on JS float division is exactly
`2 * count > balances.length`. -/
def overallBalanceOf (ps : List (String × PulseStats)) : String :=
  let balances := ps.map fun e => e.2.balance
  if 2 * (balances.filter (· == "mentor_heavy")).length > balances.length then "mentor_heavy"
  else if 2 * (balances.filter (· == "mentee_heavy")).length > balances.length then "mentee_heavy"
  else "balanced"

/-- `EngagementPulse.run` (csvPulse.ts lines 77-195).  The CSV loads are
external collaborators injected as an `Except` carrying the thrown
message; the surrounding try/catch produces the error result. -/
def run (load : Except String PulseData) (now : Int) (options : EngagementOptions) :
    EngagementResult :=
  match load with
  | .error msg => .error msg "Check that data files exist and are properly formatted"
  | .ok data =>
    let mode := effMode options
    let limit := effLimit options
    let ps := applyBalances (pairStatsOf now data.checkins) (groupByPair data.messages)
    let dormantPairs := dormantPairsOf ps
    if mode = "list" then
      let sorted := dormantPairs.insertionSort dormantSortRel
      .list dormantPairs.length ((sorted.take limit).map (resolveMentee data.users data.pairings))
    else
      .summary ps.length dormantPairs.length (overallBalanceOf ps) (maxDaysOf ps)

/-- `parseInt` on a non-empty run of decimal digits. -/
def natOfDigits (ds : List Char) : ℕ :=
  ds.foldl (fun n c => 10 * n + (c.toNat - 48)) 0

/-- The match of `/last_checkin_days=(\d+)/` (composeNudge.ts line 37):
scan left to right for the literal pattern followed by at least one digit;
the capture is the maximal digit run. -/
def findDaysMatch : List Char → Option ℕ
  | [] => none
  | c :: rest =>
    let pat := "last_checkin_days=".data
    if pat.isPrefixOf (c :: rest) then
      let ds := ((c :: rest).drop pat.length).takeWhile Char.isDigit
      if ds.isEmpty then findDaysMatch rest else some (natOfDigits ds)
    else findDaysMatch rest

/-- `engagementData.match(/last_checkin_days=(\d+)/)`, returning the parsed
capture group. -/
def extractLastCheckinDays (s : String) : Option ℕ :=
  findDaysMatch s.data

/-- The match of `/\) ([^|]+)/` (composeNudge.ts line 63): scan for `") "`
followed by at least one non-`|` character; the capture is the maximal
non-`|` run. -/
def findTipMatch : List Char → Option (List Char)
  | [] => none
  | c :: rest =>
    if c = ')' then
      match rest with
      | ' ' :: rest2 =>
        let cap := rest2.takeWhile (· != '|')
        if cap.isEmpty then findTipMatch rest else some cap
      | _ => findTipMatch rest
    else findTipMatch rest

/-- The extracted tip sentence: the first capture of `/\) ([^|]+)/`,
trimmed (composeNudge.ts lines 63-64). -/
def extractTip (s : String) : Option String :=
  (findTipMatch s.data).map fun cs => (String.mk cs).trim

/-- The `suggestedQuestions` array (composeNudge.ts lines 69-74). -/
def suggestedQuestions : List String :=
  ["What\x27s one win from this week you\x27d like to share?",
   "What challenge could benefit from another perspective?",
   "How are you progressing on your current goals?",
   "What\x27s one thing you\x27d like feedback on?"]

/-- The three record collections read by `ComposeNudge`. -/
structure ComposeData where
  users : List UserRec
  pairings : List Pairing
  programmes : List Programme

/-- The `targetPair` selection (composeNudge.ts lines 46-48).
`pairId ? find(...) : pairings[Math.floor(Math.random()*len)]`: a supplied
non-empty `pairId` is looked up (and is NOT retried randomly when the
lookup fails); an absent — or, by JS falsiness, empty — `pairId` picks the
randomly drawn index, which is in range exactly when the list is
non-empty. -/
def targetPairOf (pairings : List Pairing) (pairId : Option String) (randIndex : ℕ) :
    Option Pairing :=
  match pairId with
  | some pid =>
    if pid = "" then pairings.get? randIndex
    else pairings.find? fun p => p.pair_id == pid
  | none => pairings.get? randIndex

/-- The overdue body template (composeNudge.ts line 80). -/
def overdueBody (menteeName mentorName : String) (days : ℕ) (tipText question : String) :
    String :=
  "Hi " ++ menteeName ++ ", noticed it has been " ++ toString days ++
    " days since your last check-in. " ++ tipText ++
    " Here\x27s a gentle prompt you can use with " ++ mentorName ++ ": \"" ++ question ++ "\""

/-- The not-overdue body template (composeNudge.ts line 82). -/
def connectedBody (menteeName mentorName question : String) : String :=
  "Hi " ++ menteeName ++
    ", great to see you\x27re staying connected! Here\x27s a conversation starter for your next session with " ++
    mentorName ++ ": \"" ++ question ++ "\""

/-- The three-line `To/Subject/Body` message (composeNudge.ts lines 85-87). -/
def nudgeMessage (menteeName programmeName body : String) : String :=
  "To: " ++ menteeName ++ "\nSubject: Checking in on your " ++ programmeName ++
    " progress\nBody: " ++ body

/-- `ComposeNudge.compose` (composeNudge.ts lines 35-88).  The loaded
collections and the two random draws (pair index, question index) are
injected; `Math.floor(Math.random()*4)` always lands in `[0,3]`, embedded
as `questionIndex % 4`. -/
def compose (data : ComposeData) (randIndex questionIndex : ℕ)
    (engagementData tips : String) (pairId : Option String) : String :=
  let lastCheckinDays := (extractLastCheckinDays engagementData).getD 14
  match targetPairOf data.pairings pairId randIndex with
  | none => "Error: No pairing found"
  | some targetPair =>
    match data.users.find? (fun u => u.user_id == targetPair.mentee_id),
          data.users.find? (fun u => u.user_id == targetPair.mentor_id),
          data.programmes.find? (fun p => p.programme_id == targetPair.programme_id) with
    | some mentee, some mentor, some programme =>
      let tipText := (extractTip tips).getD "Stay connected with your mentor"
      let question := (suggestedQuestions.get? (questionIndex % 4)).getD ""
      let body :=
        if programme.cadence_days < lastCheckinDays then
          overdueBody mentee.first_name mentor.first_name lastCheckinDays tipText question
        else
          connectedBody mentee.first_name mentor.first_name question
      nudgeMessage mentee.first_name programme.name body
    | _, _, _ => "Error: Missing data for nudge composition"

/-- Substring containment, the JS `String.prototype.includes`. -/
def hasSub (sub : List Char) : List Char → Bool
  | [] => sub.isEmpty
  | c :: rest => sub.isPrefixOf (c :: rest) || hasSub sub rest

/-- `s.includes(sub)`. -/
def containsStr (s sub : String) : Bool := hasSub sub.data s.data

/-- Case-insensitive character-list prefix test (the pattern is given in
lowercase, the subject is lowered per character, as the `i` flag does). -/
def ciStarts : List Char → List Char → Bool
  | [], _ => true
  | _ :: _, [] => false
  | p :: ps, c :: cs => (p == c.toLower) && ciStarts ps cs

/-- The `\b` condition before a match: start of string or a preceding
non-word character. -/
def wordBoundaryOk (prev : Option Char) : Bool :=
  match prev with
  | none => true
  | some c => !isWordChar c

/-- A whole-word case-insensitive match of `w` at the head of `s` with the
previous character `prev`: both `\b` boundaries hold. -/
def matchWordAt (w : List Char) (prev : Option Char) (s : List Char) : Bool :=
  wordBoundaryOk prev && ciStarts w s &&
    (match s.drop w.length with
     | [] => true
     | d :: _ => !isWordChar d)

/-- The alternatives of `/\b(which|who|list|show)\b/i`. -/
def listWords : List (List Char) :=
  ["which".data, "who".data, "list".data, "show".data]

/-- Scan every position of the subject for a whole-word match of one of
the alternatives. -/
def scanListPattern (prev : Option Char) : List Char → Bool
  | [] => false
  | c :: rest =>
    listWords.any (fun w => matchWordAt w prev (c :: rest)) || scanListPattern (some c) rest

/-- `/\b(which|who|list|show)\b/i.test(prompt)` (deterministic.ts lines
14 and 24; note it tests the original prompt, not the lowered one). -/
def listPatternTest (prompt : String) : Bool :=
  scanListPattern none prompt.data

/-- `prompt.toLowerCase()`. -/
def lowerOf (s : String) : String :=
  String.mk (s.data.map Char.toLower)

/-- The Router's output record (deterministic.ts lines 1-5). -/
structure BrainDecision where
  action : String
  mode : Option String := none
  prompt : Option String := none

namespace DeterministicBrain

/-- `DeterministicBrain.decide` (deterministic.ts lines 8-47): fixed
keyword rules evaluated in priority order on the lower-cased prompt. -/
def decide (prompt : String) : BrainDecision :=
  let lowerPrompt := lowerOf prompt
  if containsStr lowerPrompt "engagement" || containsStr lowerPrompt "pulse" ||
      containsStr lowerPrompt "checkin" then
    let mode := if listPatternTest prompt then "list" else "summary"
    { action := "USE:engagement_pulse:" ++ mode, mode := some mode, prompt := some prompt }
  else if containsStr lowerPrompt "dormant" || containsStr lowerPrompt "inactive" then
    if containsStr lowerPrompt "tip" || containsStr lowerPrompt "advice" then
      { action := "USE:mentor_tips" }
    else
      let mode := if listPatternTest prompt then "list" else "summary"
      { action := "USE:engagement_pulse:" ++ mode, mode := some mode, prompt := some prompt }
  else if containsStr lowerPrompt "one sided" || containsStr lowerPrompt "one-sided" ||
      containsStr lowerPrompt "imbalance" then
    { action := "USE:mentor_tips" }
  else if containsStr lowerPrompt "tip" || containsStr lowerPrompt "advice" ||
      containsStr lowerPrompt "suggestion" then
    { action := "USE:mentor_tips" }
  else if containsStr lowerPrompt "echo" then
    { action := "USE:echo" }
  else if containsStr lowerPrompt "debug" then
    { action := "RESPOND:Debug mode - all systems operational" }
  else
    { action := "RESPOND:I understand you\x27re asking about \"" ++ prompt ++
        "\". Let me help with that." }

end DeterministicBrain

/-- Character-level `String.startsWith`, kernel-reducible. -/
def strStarts (pre s : String) : Bool := pre.data.isPrefixOf s.data

/-- Character-level `substring(n)`. -/
def strDrop (s : String) (n : ℕ) : String := String.mk (s.data.drop n)

/-- Character-level split on one separator character, the JS
`String.prototype.split` with a one-character separator. -/
def splitOnChar (s : String) (sep : Char) : List String :=
  (s.data.splitOnP (· == sep)).map fun l => String.mk l

/-- The structured nudge extracted from the composed text (cli.ts lines
152-161). -/
structure NudgeParsed where
  subject : String
  body : String
deriving DecidableEq

/-- The shapes `result.observation` can take in `main` (cli.ts): a pulse
result, a tips result, the chained `{tips, nudge}` record, or a plain
string. -/
inductive Observation where
  | pulse (r : EngagementResult)
  | tips (r : TipsResult)
  | tipsNudge (tipsRes : TipsResult) (nudge : NudgeParsed)
  | str (s : String)

/-- The compact summary string for `compose_nudge` (cli.ts lines 142-144
and 176-178). -/
def formatSummary (r : EngagementResult) : String :=
  match r with
  | .summary sample dormant balance lastDays =>
    "sample=" ++ toString sample ++ " dormant=" ++ toString dormant ++
      " balance=" ++ balance ++ " last_checkin_days=" ++ toString lastDays
  | _ => "sample=0 dormant=0 balance=balanced last_checkin_days=0"

/-- `hits.slice(0, 2).map(h => `(${h.id} ${h.score}) ${h.text}`).join(' | ')`
(cli.ts lines 147 and 185); JS number-to-string conversion of the score is
a platform primitive, injected as `fmtScore`. -/
def formatHits (fmtScore : ℝ → String) (hits : List RagHit) : String :=
  String.intercalate " | "
    ((hits.take 2).map fun h => "(" ++ h.id ++ " " ++ fmtScore h.score ++ ") " ++ h.text)

/-- JS `String.prototype.replace` with a string pattern: replace the first
occurrence (here always with the empty string). -/
def replaceFirstAux (pat : List Char) : List Char → List Char
  | [] => []
  | c :: rest =>
    if pat.isPrefixOf (c :: rest) then (c :: rest).drop pat.length
    else c :: replaceFirstAux pat rest

/-- `s.replace(pat, '')`. -/
def replaceFirst (s pat : String) : String :=
  String.mk (replaceFirstAux pat.data s.data)

/-- Parsing of the composed nudge text into `{subject, body}` (cli.ts
lines 152-161). -/
def parseNudge (nudgeText : String) : NudgeParsed :=
  let lines := splitOnChar nudgeText '\n'
  let subjectLine := lines.find? fun l => strStarts "Subject:" l
  let bodyLines := lines.filter fun l => strStarts "Body:" l
  { subject :=
      match subjectLine with
      | some l => replaceFirst l "Subject: "
      | none => "Mentorship update",
    body :=
      match bodyLines.head? with
      | some l => replaceFirst l "Body: "
      | none => nudgeText }

/-- `decision.action.substring(4).split(':')` (cli.ts line 116). -/
def toolPartsOf (action : String) : List String :=
  splitOnChar (strDrop action 4) ':'

/-- `toolParts[0]` (cli.ts line 117). -/
def toolOf (action : String) : String :=
  (toolPartsOf action).headD ""

/-- `toolParts[1] || decision.mode` (cli.ts line 118): `undefined` and the
empty string are falsy. -/
def toolModeOf (action : String) (decisionMode : Option String) : Option String :=
  match (toolPartsOf action).get? 1 with
  | some s => if s = "" then decisionMode else some s
  | none => decisionMode

/-- Error discriminator on a pulse result (`pulseResult.type === 'error'`). -/
def isErrorPulse (r : EngagementResult) : Bool :=
  match r with
  | .error _ _ => true
  | _ => false

/-- Error discriminator on a tips result (`tipsResult.type === 'error'`). -/
def isErrorTips (r : TipsResult) : Bool :=
  match r with
  | .error _ _ => true
  | _ => false

/-- The per-invocation collaborators of `main` (cli.ts): the injected data
loads, clock, random draws, number formatting, and CLI arguments. -/
structure AgentEnv where
  pulseLoad : Except String PulseData
  tipsLoad : Except String (List Tip)
  composeLoad : Except String ComposeData
  now : Int
  randIndex : ℕ
  questionIndex : ℕ
  fmtScore : ℝ → String
  pairId : Option String
  limit : ℕ

/-- `decision.prompt || prompt` (cli.ts line 126): `undefined` and the
empty string are falsy. -/
def effPromptOf (decisionPrompt : Option String) (prompt : String) : String :=
  match decisionPrompt with
  | some p => if p = "" then prompt else p
  | none => prompt

/-- The `engagement_pulse` case of the dispatch switch (cli.ts lines
121-130). -/
def actPulse (env : AgentEnv) (decision : BrainDecision) (prompt : String) :
    Observation × String :=
  let pulseResult := run env.pulseLoad env.now
    ⟨toolModeOf decision.action decision.mode, some env.limit,
      some (effPromptOf decision.prompt prompt)⟩
  (.pulse pulseResult, if isErrorPulse pulseResult then "needs improvement" else "looks ok")

/-- The `mentor_tips` case of the dispatch switch, with the optional
chaining into the composer (cli.ts lines 132-169). -/
noncomputable def actTips (env : AgentEnv) (prompt : String) (composeFlag : Bool) :
    Observation × String :=
  let tipsResult := retrieve env.tipsLoad prompt
  let reflection := if isErrorTips tipsResult then "needs improvement" else "looks ok"
  match tipsResult with
  | .tips hits =>
    if composeFlag && !hits.isEmpty then
      match env.composeLoad with
      | .error msg => (.str ("Error: " ++ msg), "needs improvement")
      | .ok cdata =>
        let engagementData := formatSummary (run env.pulseLoad env.now ⟨some "summary", none, none⟩)
        let topTips := formatHits env.fmtScore hits
        let nudgeText :=
          compose cdata env.randIndex env.questionIndex engagementData topTips env.pairId
        (.tipsNudge tipsResult (parseNudge nudgeText), reflection)
    else (.tips tipsResult, reflection)
  | .error _ _ => (.tips tipsResult, reflection)

/-- The `compose_nudge` case of the dispatch switch (cli.ts lines
171-191); its reflection is the unconditional `'looks ok'` of line 190. -/
noncomputable def actCompose (env : AgentEnv) (prompt : String) : Observation × String :=
  match env.composeLoad with
  | .error msg => (.str ("Error: " ++ msg), "needs improvement")
  | .ok cdata =>
    let engagementData := formatSummary (run env.pulseLoad env.now ⟨some "summary", none, none⟩)
    let tipsDataStr :=
      match retrieve env.tipsLoad prompt with
      | .tips hits =>
        if !hits.isEmpty then formatHits env.fmtScore hits else "No relevant tips found"
      | .error _ _ => "No relevant tips found"
    (.str (compose cdata env.randIndex env.questionIndex engagementData tipsDataStr env.pairId),
      "looks ok")

/-- The act/reflect phase of the agent loop (cli.ts lines 115-208): branch
on the decision's action, dispatch to the tool, and tag the observation
with the self-assessment.  An uncaught `ComposeNudge` load fault is the
one throwing path, handled by the top-level catch (cli.ts lines 209-212).
Returns `(observation, reflection)`. -/
noncomputable def runAct (env : AgentEnv) (decision : BrainDecision) (prompt : String)
    (composeFlag : Bool) : Observation × String :=
  if strStarts "USE:" decision.action then
    let tool := toolOf decision.action
    if tool = "engagement_pulse" then actPulse env decision prompt
    else if tool = "mentor_tips" then actTips env prompt composeFlag
    else if tool = "compose_nudge" then actCompose env prompt
    else if tool = "echo" then (.str ("Echo: " ++ prompt), "looks ok")
    else (.str ("Unknown tool: " ++ tool), "needs improvement")
  else if strStarts "RESPOND:" decision.action then
    (.str (strDrop decision.action 8), "looks ok")
  else
    (.str decision.action, "looks ok")

/-- The stats record written for a check-in with timestamp `ts`
(csvPulse.ts line 97): balance starts as `"balanced"`. -/
def statsFor (now ts : Int) : PulseStats :=
  ⟨ts, "balanced", daysSinceOf now ts⟩

/-- The effect of one check-in on one pair's stats entry, seen through the
map lookup: keep the entry with the strictly greater timestamp. -/
def recencyStep (now : Int) (acc : Option PulseStats) (c : CheckIn) : Option PulseStats :=
  match acc with
  | none => some (statsFor now c.timestamp)
  | some st =>
    if st.lastCheckin < c.timestamp then some (statsFor now c.timestamp) else some st

/-- Maximum accumulation with first-wins ties, the timestamp shadow of
`recencyStep`. -/
def maxStep (acc : Option Int) (t : Int) : Option Int :=
  match acc with
  | none => some t
  | some m => if m < t then some t else some m

/-- The greatest check-in timestamp of a pair, folded in file order. -/
def maxTsOf (cs : List CheckIn) (pid : String) : Option Int :=
  ((cs.filter fun c => c.pair_id == pid).map CheckIn.timestamp).foldl maxStep none

lemma sqNormOver_nonneg (s : Finset String) (v : FeatureVec) : 0 ≤ sqNormOver s v :=
  Finset.sum_nonneg fun w _ => by positivity

lemma sqNormOver_subset {s : Finset String} (v : FeatureVec) (h : v.keys ⊆ s) :
    sqNormOver s v = sqNormOver v.keys v :=
  (Finset.sum_subset h fun w _ hw => by rw [v.count_eq_zero w hw]; norm_num).symm

lemma magnitude_eq_zero_iff (v : FeatureVec) : magnitude v = 0 ↔ sqNormOver v.keys v = 0 := by
  unfold magnitude
  rw [Real.sqrt_eq_zero (sqNormOver_nonneg _ _)]

lemma allWords_comm (a b : FeatureVec) : allWords a b = allWords b a :=
  Finset.union_comm _ _

lemma dotProduct_comm (a b : FeatureVec) : dotProduct a b = dotProduct b a := by
  unfold dotProduct
  rw [allWords_comm]
  exact Finset.sum_congr rfl fun w _ => mul_comm _ _

lemma dotProduct_nonneg (a b : FeatureVec) : 0 ≤ dotProduct a b :=
  Finset.sum_nonneg fun w _ => by positivity

lemma cosineSimilarity_comm (a b : FeatureVec) :
    cosineSimilarity a b = cosineSimilarity b a := by
  unfold cosineSimilarity
  rw [allWords_comm, dotProduct_comm]
  exact if_congr or_comm rfl (by rw [mul_comm])

lemma cosineSimilarity_nonneg (a b : FeatureVec) : 0 ≤ cosineSimilarity a b := by
  unfold cosineSimilarity
  split
  · exact le_refl 0
  · exact div_nonneg (dotProduct_nonneg a b) (by positivity)

lemma cosineSimilarity_le_one (a b : FeatureVec) : cosineSimilarity a b ≤ 1 := by
  unfold cosineSimilarity
  split
  · norm_num
  · rename_i h
    push_neg at h
    have h1 : 0 < sqNormOver (allWords a b) a :=
      lt_of_le_of_ne (sqNormOver_nonneg _ _) (Ne.symm h.1)
    have h2 : 0 < sqNormOver (allWords a b) b :=
      lt_of_le_of_ne (sqNormOver_nonneg _ _) (Ne.symm h.2)
    rw [div_le_one (mul_pos (Real.sqrt_pos.mpr h1) (Real.sqrt_pos.mpr h2))]
    have hcs := Real.sum_mul_le_sqrt_mul_sqrt (allWords a b)
      (fun w => (a.count w : ℝ)) (fun w => (b.count w : ℝ))
    unfold dotProduct sqNormOver
    simpa [pow_two] using hcs

lemma cosineSimilarity_self (v : FeatureVec) (hv : ∃ w, v.count w ≠ 0) :
    cosineSimilarity v v = 1 := by
  obtain ⟨w, hw⟩ := hv
  have hwk : w ∈ v.keys := by
    by_contra hmem
    exact hw (v.count_eq_zero w hmem)
  have hcast : (0 : ℝ) < (v.count w : ℝ) := by
    exact_mod_cast Nat.pos_of_ne_zero hw
  have hpos : 0 < sqNormOver (allWords v v) v := by
    unfold sqNormOver allWords
    rw [Finset.union_self]
    exact Finset.sum_pos' (fun i _ => by positivity) ⟨w, hwk, mul_pos hcast hcast⟩
  have hd : dotProduct v v = sqNormOver (allWords v v) v := rfl
  unfold cosineSimilarity
  rw [if_neg (by push_neg; exact ⟨hpos.ne', hpos.ne'⟩), hd,
    Real.mul_self_sqrt hpos.le, div_self hpos.ne']

lemma cosineSimilarity_eq_zero_of_magnitude (a b : FeatureVec)
    (h : magnitude a = 0 ∨ magnitude b = 0) : cosineSimilarity a b = 0 := by
  unfold cosineSimilarity
  rw [if_pos]
  have hw : allWords a b = a.keys ∪ b.keys := rfl
  rcases h with h | h
  · left
    rw [hw, sqNormOver_subset a Finset.subset_union_left]
    exact (magnitude_eq_zero_iff a).mp h
  · right
    rw [hw, sqNormOver_subset b Finset.subset_union_right]
    exact (magnitude_eq_zero_iff b).mp h

lemma applyBalances_nil (gs : List (String × List MessageRec)) : applyBalances [] gs = [] := by
  induction gs with
  | nil => rfl
  | cons g gs ih => simpa [applyBalances, lookupAssoc] using ih

/-- C4: cosine similarity is symmetric, bounded in `[0,1]`, equal to `1`
on any non-zero vector paired with itself, and equal to `0` (a defined
value, not an error) whenever either vector's magnitude is `0`. -/
theorem c4_cosineSimilarity_spec (a b v : FeatureVec) (hv : ∃ w, v.count w ≠ 0) :
    cosineSimilarity a b = cosineSimilarity b a ∧
    0 ≤ cosineSimilarity a b ∧ cosineSimilarity a b ≤ 1 ∧
    cosineSimilarity v v = 1 ∧
    ((magnitude a = 0 ∨ magnitude b = 0) → cosineSimilarity a b = 0) :=
  ⟨cosineSimilarity_comm a b, cosineSimilarity_nonneg a b, cosineSimilarity_le_one a b,
   cosineSimilarity_self v hv, cosineSimilarity_eq_zero_of_magnitude a b⟩

/-- Witness for C4 at concrete vectors: `vectorise "mentor advice"` is
non-zero and self-similar with similarity 1, and the empty text's vector
has magnitude 0 and similarity 0 against `vectorise "tips"`. -/
theorem c4_cosineSimilarity_spec_witness :
    ((vectorise "mentor advice").count "mentor" ≠ 0 ∧
      cosineSimilarity (vectorise "mentor advice") (vectorise "mentor advice") = 1) ∧
    (magnitude (vectorise "") = 0 ∧
      cosineSimilarity (vectorise "") (vectorise "tips") = 0) := by
  have hv : (vectorise "mentor advice").count "mentor" ≠ 0 := by decide
  have hm : magnitude (vectorise "") = 0 := by
    rw [magnitude_eq_zero_iff]
    have hk : (vectorise "").keys = (∅ : Finset String) := by decide
    rw [hk]
    simp [sqNormOver]
  obtain ⟨_, _, _, hself, hzero⟩ :=
    c4_cosineSimilarity_spec (vectorise "") (vectorise "tips") (vectorise "mentor advice")
      ⟨"mentor", hv⟩
  exact ⟨⟨hv, hself⟩, hm, hzero (Or.inl hm)⟩

/-- C10: summary mode over a dataset with no check-ins yields the success
record `{type:"summary", sample:0, dormant:0, balance:"balanced",
last_checkin_days:0}`, whatever the other collections hold. -/
theorem c10_summary_empty_checkins (messages : List MessageRec) (users : List UserRec)
    (pairings : List Pairing) (now : Int) (limit : Option ℕ) (p : Option String) :
    run (.ok ⟨[], messages, users, pairings⟩) now ⟨some "summary", limit, p⟩ =
      .summary 0 0 "balanced" 0 := by
  simp [run, effMode, pairStatsOf, applyBalances_nil, dormantPairsOf, overallBalanceOf,
    maxDaysOf]

/-- C6: a unigram feature is included for a token exactly when the token
has length `> 2` and is not a stop word; a bigram feature
`words[i] ++ "_" ++ words[i+1]` is emitted (and lands in the vector) for
every adjacent pair of the original unfiltered token sequence in which
neither word is a stop word, with no length filter; hence the length-2
non-stop word `"ml"` appears inside the bigram feature `"ml_model"` of
`"ml model"` but never as a unigram feature. -/
theorem c6_vectorise_features :
    (∀ (text w : String),
      w ∈ unigramsOf (tokenize text) ↔
        w ∈ tokenize text ∧ w.length > 2 ∧ w ∉ stopWords) ∧
    (∀ (text : String) (i : ℕ) (h : i + 1 < (tokenize text).length),
      (tokenize text).get ⟨i, Nat.lt_of_succ_lt h⟩ ∉ stopWords →
      (tokenize text).get ⟨i + 1, h⟩ ∉ stopWords →
      ((tokenize text).get ⟨i, Nat.lt_of_succ_lt h⟩ ++ "_" ++ (tokenize text).get ⟨i + 1, h⟩)
          ∈ bigramsOf (tokenize text) ∧
        0 < (vectorise text).count
          ((tokenize text).get ⟨i, Nat.lt_of_succ_lt h⟩ ++ "_" ++
            (tokenize text).get ⟨i + 1, h⟩)) ∧
    ((vectorise "ml model").count "ml_model" = 1 ∧ (vectorise "ml model").count "ml" = 0 ∧
      "ml" ∈ tokenize "ml model" ∧ "ml" ∉ stopWords ∧ "ml".length ≤ 2) := by
  refine ⟨?_, ?_, by decide⟩
  · intro text w
    simp [unigramsOf, List.mem_filter]
  · intro text i h h1 h2
    have hi : i < (tokenize text).length := Nat.lt_of_succ_lt h
    have hit : i < (tokenize text).tail.length := by
      rw [List.length_tail]; omega
    have hzlen : i < ((tokenize text).zip (tokenize text).tail).length := by
      rw [List.length_zip, List.length_tail]; omega
    have hz : ((tokenize text).zip (tokenize text).tail).get ⟨i, hzlen⟩ =
        ((tokenize text).get ⟨i, hi⟩, (tokenize text).get ⟨i + 1, h⟩) := by
      have ht : (tokenize text).tail.get ⟨i, hit⟩ = (tokenize text).get ⟨i + 1, h⟩ := by
        simp [List.get_tail]
      rw [← ht]
      simp [List.getElem_zip, List.get_eq_getElem]
    have hmem : ((tokenize text).get ⟨i, hi⟩ ++ "_" ++ (tokenize text).get ⟨i + 1, h⟩)
        ∈ bigramsOf (tokenize text) := by
      apply List.mem_filterMap.mpr
      refine ⟨((tokenize text).zip (tokenize text).tail).get ⟨i, hzlen⟩, List.get_mem _ _ _, ?_⟩
      rw [hz]
      have hcond : (!stopWords.contains ((tokenize text).get ⟨i, hi⟩) &&
          !stopWords.contains ((tokenize text).get ⟨i + 1, h⟩)) = true := by
        simp only [List.get_eq_getElem] at h1 h2
        simp [h1, h2]
      rw [if_pos hcond]
    refine ⟨hmem, ?_⟩
    have : ((tokenize text).get ⟨i, hi⟩ ++ "_" ++ (tokenize text).get ⟨i + 1, h⟩)
        ∈ featureListOf text := List.mem_append.mpr (Or.inr hmem)
    exact List.count_pos_iff.mpr this

/-- Witness for C6 at the concrete text `"ml model"`: position 0 pairs the
non-stop words `"ml"` and `"model"`, so the bigram feature is emitted and
counted despite `"ml"` having length 2. -/
theorem c6_vectorise_features_witness :
    "ml_model" ∈ bigramsOf (tokenize "ml model") ∧
      0 < (vectorise "ml model").count "ml_model" := by
  have h : (0 : ℕ) + 1 < (tokenize "ml model").length := by decide
  have e0 : (tokenize "ml model").get ⟨0, Nat.lt_of_succ_lt h⟩ = "ml" := rfl
  have e1 : (tokenize "ml model").get ⟨0 + 1, h⟩ = "model" := rfl
  have hm := c6_vectorise_features.2.1 "ml model" 0 h (by rw [e0]; decide) (by rw [e1]; decide)
  rw [e0, e1] at hm
  have happ : "ml" ++ "_" ++ "model" = "ml_model" := rfl
  rw [happ] at hm
  exact hm

/-- C7: for every prompt routed to an `engagement_pulse` action by rule 1
(contains "engagement"/"pulse"/"checkin" in the lowered prompt) or rule 2
(contains "dormant"/"inactive" without "tip"/"advice", rule 1 failing),
the appended mode is `list` iff the original prompt matches
`/\b(which|who|list|show)\b/i`, else `summary`. -/
theorem c7_engagement_mode (p : String)
    (h : (containsStr (lowerOf p) "engagement" || containsStr (lowerOf p) "pulse" ||
            containsStr (lowerOf p) "checkin") = true ∨
          ((containsStr (lowerOf p) "engagement" || containsStr (lowerOf p) "pulse" ||
            containsStr (lowerOf p) "checkin") = false ∧
           (containsStr (lowerOf p) "dormant" || containsStr (lowerOf p) "inactive") = true ∧
           (containsStr (lowerOf p) "tip" || containsStr (lowerOf p) "advice") = false)) :
    (DeterministicBrain.decide p).action =
      "USE:engagement_pulse:" ++ (if listPatternTest p then "list" else "summary") ∧
    ((DeterministicBrain.decide p).action = "USE:engagement_pulse:list" ↔
      listPatternTest p = true) := by
  have ha : (DeterministicBrain.decide p).action =
      "USE:engagement_pulse:" ++ (if listPatternTest p then "list" else "summary") := by
    rcases h with h | ⟨h1, h2, h3⟩
    · simp [DeterministicBrain.decide, h]
    · simp [DeterministicBrain.decide, h1, h2, h3]
  refine ⟨ha, ?_⟩
  rw [ha]
  cases hl : listPatternTest p
  · simp only [hl, Bool.false_eq_true, if_false]
    constructor
    · intro he
      exact absurd he (by decide)
    · intro he
      exact absurd he (by decide)
  · simp only [hl, if_true]
    exact iff_of_true (by decide) trivial

/-- Witness for C7: a rule-1 prompt with a `\b`-matched "Show" goes to
list mode; a rule-1 prompt without a list keyword goes to summary mode. -/
theorem c7_engagement_mode_witness :
    (containsStr (lowerOf "Show checkin status") "checkin" = true ∧
      (DeterministicBrain.decide "Show checkin status").action = "USE:engagement_pulse:list") ∧
    (containsStr (lowerOf "engagement status") "engagement" = true ∧
      (DeterministicBrain.decide "engagement status").action =
        "USE:engagement_pulse:summary") := by
  have h1 := c7_engagement_mode "Show checkin status" (Or.inl (by decide))
  have h2 := c7_engagement_mode "engagement status" (Or.inl (by decide))
  refine ⟨⟨by decide, ?_⟩, ⟨by decide, ?_⟩⟩
  · rw [h1.1]
    decide
  · rw [h2.1]
    decide

instance : IsTotal RagHit hitGE :=
  ⟨fun a b => le_total b.score a.score⟩

instance : IsTrans RagHit hitGE :=
  ⟨fun _ _ _ hab hbc => le_trans hbc hab⟩

lemma insertionSort_filter_score (l : List RagHit) (s : ℝ) :
    (l.insertionSort hitGE).filter (fun h => decide (h.score = s)) =
      l.filter (fun h => decide (h.score = s)) := by
  have hall : ∀ x ∈ l.filter (fun h => decide (h.score = s)),
      ∀ y ∈ l.filter (fun h => decide (h.score = s)), hitGE x y := by
    intro x hx y hy
    have hx' : x.score = s := by simpa using List.of_mem_filter hx
    have hy' : y.score = s := by simpa using List.of_mem_filter hy
    unfold hitGE
    rw [hx', hy']
  have hsub : List.Sublist (l.filter (fun h => decide (h.score = s))) (l.insertionSort hitGE) :=
    List.sublist_insertionSort (List.pairwise_of_forall_mem_list hall) (List.filter_sublist l)
  have h1 := hsub.filter (fun h => decide (h.score = s))
  have hself : (l.filter (fun h => decide (h.score = s))).filter
      (fun h => decide (h.score = s)) = l.filter (fun h => decide (h.score = s)) := by
    apply List.filter_eq_self.mpr
    intro a ha
    exact (List.mem_filter.mp ha).2
  rw [hself] at h1
  have hperm := (List.perm_insertionSort hitGE l).filter (fun h => decide (h.score = s))
  exact (h1.eq_of_length hperm.length_eq.symm).symm

/-- C5: `findSimilar` returns at most `topK` items, in non-increasing
score order, and equal-score items keep the document input order (the
output's restriction to any fixed score is a prefix of the scored
document list's restriction to that score). -/
theorem c5_findSimilar_spec (query : String) (documents : List RagDoc) (topK : ℕ) :
    (findSimilar query documents topK).length ≤ topK ∧
    (findSimilar query documents topK).Sorted hitGE ∧
    ∀ s : ℝ,
      List.IsPrefix
        ((findSimilar query documents topK).filter (fun h => decide (h.score = s)))
        ((docScores query documents).filter (fun h => decide (h.score = s))) := by
  refine ⟨?_, ?_, ?_⟩
  · simp [findSimilar, List.length_take]
  · have hs := List.sorted_insertionSort hitGE (docScores query documents)
    exact hs.sublist (List.take_sublist _ _)
  · intro s
    have hpre : List.IsPrefix (((docScores query documents).insertionSort hitGE).take topK)
        ((docScores query documents).insertionSort hitGE) :=
      ⟨_, List.take_append_drop topK _⟩
    have hf := hpre.filter (fun h => decide (h.score = s))
    rw [insertionSort_filter_score] at hf
    exact hf

lemma dotProduct_eq_zero_of_nat (v1 v2 : FeatureVec)
    (h : (∑ w ∈ allWords v1 v2, v1.count w * v2.count w) = 0) : dotProduct v1 v2 = 0 := by
  unfold dotProduct
  have hcast : (∑ w ∈ allWords v1 v2, (v1.count w : ℝ) * (v2.count w : ℝ)) =
      ((∑ w ∈ allWords v1 v2, v1.count w * v2.count w : ℕ) : ℝ) := by
    push_cast
    rfl
  rw [hcast, h]
  norm_num

lemma cosineSimilarity_eq_zero_of_dot (v1 v2 : FeatureVec) (h : dotProduct v1 v2 = 0) :
    cosineSimilarity v1 v2 = 0 := by
  unfold cosineSimilarity
  split
  · rfl
  · rw [h, zero_div]

/-- C2 amended: a data-load failure (and only it) yields the error result;
an empty corpus yields `{type:"tips", hits: []}`; but a non-empty corpus
always yields `min 2 |corpus|` hits, whatever the scores — zero-score hits
are not filtered out. -/
theorem c2_retrieve_spec (query msg : String) (tips : List Tip) :
    retrieve (.error msg) query =
      .error msg "Check that tips.json exists and is properly formatted" ∧
    retrieve (.ok []) query = .tips [] ∧
    ∃ hits, retrieve (.ok tips) query = .tips hits ∧ hits.length = min 2 tips.length := by
  refine ⟨rfl, ?_, ?_⟩
  · simp [retrieve, findSimilar, docScores]
  · have hlen : (findSimilar query
        (tips.map fun tip =>
          RagDoc.mk tip.tip_id (tip.situation ++ " " ++ tip.text) (splitTags tip.situation))
        2).length = min 2 tips.length := by
      simp [findSimilar, docScores, List.length_take]
    by_cases h0 : (findSimilar query
        (tips.map fun tip =>
          RagDoc.mk tip.tip_id (tip.situation ++ " " ++ tip.text) (splitTags tip.situation))
        2).length = 0
    · refine ⟨[], ?_, ?_⟩
      · simp [retrieve, h0]
      · rw [← hlen, h0, List.length_nil]
    · refine ⟨(findSimilar query
        (tips.map fun tip =>
          RagDoc.mk tip.tip_id (tip.situation ++ " " ++ tip.text) (splitTags tip.situation))
        2).map fun r =>
          RagHit.mk r.id (roundTo2 r.score)
            (((tips.find? fun t => t.tip_id == r.id).map Tip.text).getD "") r.tags, ?_, ?_⟩
      · simp only [retrieve]
        rw [if_neg h0]
      · rw [List.length_map]
        exact hlen

/-- The corpus for the C2 counterexample: one tip, lexically unrelated to
the query `"zzz"`. -/
def tipZero : Tip := ⟨"t1", "qqq", "www"⟩

/-- C2 counterexample: with the one-tip corpus `tipZero` and query
`"zzz"`, no document scores above zero, yet `retrieve` returns one hit
with score `0` — not the empty hit list the claim requires, and a
non-error result containing a zero-score hit. -/
theorem c2_counterexample :
    retrieve (.ok [tipZero]) "zzz" = .tips [⟨"t1", 0, "www", ["qqq"]⟩] := by
  have hnat : (∑ w ∈ allWords (vectorise "zzz") (vectorise "qqq www"),
      (vectorise "zzz").count w * (vectorise "qqq www").count w) = 0 := by decide
  have hsim : cosineSimilarity (vectorise "zzz") (vectorise "qqq www") = 0 :=
    cosineSimilarity_eq_zero_of_dot _ _ (dotProduct_eq_zero_of_nat _ _ hnat)
  have hdocs : ([tipZero].map fun tip =>
      RagDoc.mk tip.tip_id (tip.situation ++ " " ++ tip.text) (splitTags tip.situation)) =
      [RagDoc.mk "t1" "qqq www" ["qqq"]] := rfl
  have hfind : findSimilar "zzz" [RagDoc.mk "t1" "qqq www" ["qqq"]] 2 =
      [⟨"t1", 0, "qqq www", ["qqq"]⟩] := by
    simp [findSimilar, docScores, List.insertionSort, List.orderedInsert, hsim]
  simp only [retrieve]
  rw [hdocs, hfind]
  norm_num [roundTo2]
  decide

/-- Fixture: a mentee user. -/
def menteeU : UserRec := ⟨"u001", "mentee", "priya@example.com", "tz", "Priya", "2025-05-01"⟩

/-- Fixture: a mentor user. -/
def mentorU : UserRec := ⟨"m001", "mentor", "sarah@example.com", "tz", "Sarah", "2025-04-01"⟩

/-- Fixture: a pairing with `pair_id = "a"`, fully resolvable in
`composeData0`. -/
def pairingA : Pairing := ⟨"a", "m001", "u001", "prog1", "2025-06-01"⟩

/-- Fixture: a programme with a 7-day cadence. -/
def programme1 : Programme := ⟨"prog1", "Mentoring", 7, []⟩

/-- Fixture: a compose dataset in which every lookup for `pairingA`
succeeds. -/
def composeData0 : ComposeData := ⟨[menteeU, mentorU], [pairingA], [programme1]⟩

/-- C3 amended: a supplied non-empty `pair_id` is resolved by lookup and,
when the lookup fails, `compose` returns the sentinel
`"Error: No pairing found"` instead of falling back to a random pick; the
randomly drawn index is used only when no `pair_id` is supplied. -/
theorem c3_pair_selection (data : ComposeData) (ri qi : ℕ) (ed tips : String)
    (p : String) (hp : p ≠ "") :
    targetPairOf data.pairings (some p) ri = data.pairings.find? (fun q => q.pair_id == p) ∧
    (data.pairings.find? (fun q => q.pair_id == p) = none →
      compose data ri qi ed tips (some p) = "Error: No pairing found") ∧
    targetPairOf data.pairings none ri = data.pairings.get? ri := by
  have ht : targetPairOf data.pairings (some p) ri =
      data.pairings.find? (fun q => q.pair_id == p) := by
    simp [targetPairOf, hp]
  refine ⟨ht, ?_, rfl⟩
  intro hnone
  simp [compose, ht, hnone]

/-- Witness for C3 (amended) at a concrete dataset: the supplied id `"b"`
resolves to no pairing, so `compose` fails with the sentinel string. -/
theorem c3_pair_selection_witness :
    ("b" : String) ≠ "" ∧
    composeData0.pairings.find? (fun q => q.pair_id == "b") = none ∧
    compose composeData0 0 0 "x" "y" (some "b") = "Error: No pairing found" := by
  have h := c3_pair_selection composeData0 0 0 "x" "y" "b" (by decide)
  exact ⟨by decide, by decide, h.2.1 (by decide)⟩

/-- C3 counterexample: in `composeData0` every collection is resolvable
and a random pick would succeed (the `pairId := none` call composes a real
message), yet the supplied-but-unresolvable `pair_id = "b"` makes the call
fail — the code does not fall back to a random pairing as the claim
states. -/
theorem c3_counterexample :
    compose composeData0 0 0 "x" "y" (some "b") = "Error: No pairing found" ∧
    compose composeData0 0 0 "x" "y" none ≠ "Error: No pairing found" := by
  constructor
  · decide
  · decide

/-- C9: when the engagement string contains no `last_checkin_days=<digits>`
match, `compose` silently substitutes 14 days — the output is identical to
passing `"last_checkin_days=14"` — and, for a resolvable pairing, the
overdue body is used exactly when `14 > programme.cadence_days`. -/
theorem c9_default_days (data : ComposeData) (ri qi : ℕ) (ed tips : String)
    (pid : Option String) (h : extractLastCheckinDays ed = none) :
    compose data ri qi ed tips pid = compose data ri qi "last_checkin_days=14" tips pid ∧
    (∀ tp mentee mentor programme,
      targetPairOf data.pairings pid ri = some tp →
      data.users.find? (fun u => u.user_id == tp.mentee_id) = some mentee →
      data.users.find? (fun u => u.user_id == tp.mentor_id) = some mentor →
      data.programmes.find? (fun p => p.programme_id == tp.programme_id) = some programme →
      ((programme.cadence_days < 14 →
        compose data ri qi ed tips pid =
          nudgeMessage mentee.first_name programme.name
            (overdueBody mentee.first_name mentor.first_name 14
              ((extractTip tips).getD "Stay connected with your mentor")
              ((suggestedQuestions.get? (qi % 4)).getD ""))) ∧
       (¬programme.cadence_days < 14 →
        compose data ri qi ed tips pid =
          nudgeMessage mentee.first_name programme.name
            (connectedBody mentee.first_name mentor.first_name
              ((suggestedQuestions.get? (qi % 4)).getD ""))))) := by
  have h14 : extractLastCheckinDays "last_checkin_days=14" = some 14 := by decide
  constructor
  · unfold compose
    rw [h, h14]
    simp only [Option.getD_none, Option.getD_some]
  · intro tp mentee mentor programme htp hmentee hmentor hprog
    constructor
    · intro hc
      unfold compose
      rw [h]
      simp only [Option.getD_none, htp, hmentee, hmentor, hprog]
      simp [hc]
    · intro hc
      unfold compose
      rw [h]
      simp only [Option.getD_none, htp, hmentee, hmentor, hprog]
      simp [hc]

/-- Witness for C9: `"sample=5"` has no `last_checkin_days=` match, so the
composed message for the resolvable pairing `"a"` equals the one for
`"last_checkin_days=14"` and takes the overdue branch (cadence 7 < 14). -/
theorem c9_default_days_witness :
    extractLastCheckinDays "sample=5" = none ∧
    compose composeData0 0 0 "sample=5" "y" (some "a") =
      compose composeData0 0 0 "last_checkin_days=14" "y" (some "a") ∧
    compose composeData0 0 0 "sample=5" "y" (some "a") =
      nudgeMessage menteeU.first_name programme1.name
        (overdueBody menteeU.first_name mentorU.first_name 14
          ((extractTip "y").getD "Stay connected with your mentor")
          ((suggestedQuestions.get? (0 % 4)).getD "")) := by
  have hnone : extractLastCheckinDays "sample=5" = none := by decide
  have h := c9_default_days composeData0 0 0 "sample=5" "y" (some "a") hnone
  refine ⟨hnone, h.1, ?_⟩
  have h2 := h.2 pairingA menteeU mentorU programme1 (by decide) (by decide) (by decide)
    (by decide)
  exact h2.1 (by decide)

lemma lookupAssoc_nil {β : Type} (k : String) : lookupAssoc ([] : List (String × β)) k = none :=
  rfl

lemma lookupAssoc_cons {β : Type} (e : String × β) (rest : List (String × β)) (k : String) :
    lookupAssoc (e :: rest) k = if e.1 = k then some e.2 else lookupAssoc rest k := by
  unfold lookupAssoc
  rw [List.find?_cons]
  by_cases he : e.1 = k
  · simp [he]
  · simp [he]

lemma lookupAssoc_setAssoc_self {β : Type} (ps : List (String × β)) (k : String) (v : β) :
    lookupAssoc (setAssoc ps k v) k = some v := by
  induction ps with
  | nil => simp [setAssoc, lookupAssoc_cons, lookupAssoc_nil]
  | cons e rest ih =>
    by_cases he : e.1 = k
    · simp [setAssoc, he, lookupAssoc_cons]
    · simp [setAssoc, he, lookupAssoc_cons, ih]

lemma lookupAssoc_setAssoc_ne {β : Type} (ps : List (String × β)) (k k' : String) (v : β)
    (h : k' ≠ k) : lookupAssoc (setAssoc ps k v) k' = lookupAssoc ps k' := by
  have hne : ¬(k = k') := fun he => h he.symm
  induction ps with
  | nil =>
    simp only [setAssoc, lookupAssoc_cons, lookupAssoc_nil]
    exact if_neg hne
  | cons e rest ih =>
    by_cases he : e.1 = k
    · subst he
      have hset : setAssoc (e :: rest) e.1 v = (e.1, v) :: rest := by
        cases e with
        | mk a b => simp [setAssoc]
      rw [hset, lookupAssoc_cons, lookupAssoc_cons]
      rw [if_neg hne, if_neg hne]
    · simp [setAssoc, he, lookupAssoc_cons, ih]

lemma lookupAssoc_checkinStep_self (now : Int) (ps : List (String × PulseStats)) (c : CheckIn) :
    lookupAssoc (checkinStep now ps c) c.pair_id =
      recencyStep now (lookupAssoc ps c.pair_id) c := by
  unfold checkinStep recencyStep
  cases hl : lookupAssoc ps c.pair_id with
  | none => simp [lookupAssoc_setAssoc_self, statsFor]
  | some st =>
    by_cases hts : st.lastCheckin < c.timestamp
    · simp [hts, lookupAssoc_setAssoc_self, statsFor]
    · simp [hts, hl]

lemma lookupAssoc_checkinStep_ne (now : Int) (ps : List (String × PulseStats)) (c : CheckIn)
    (pid : String) (h : pid ≠ c.pair_id) :
    lookupAssoc (checkinStep now ps c) pid = lookupAssoc ps pid := by
  unfold checkinStep
  cases lookupAssoc ps c.pair_id with
  | none => exact lookupAssoc_setAssoc_ne _ _ _ _ h
  | some st =>
    by_cases hts : st.lastCheckin < c.timestamp
    · simp only [hts, if_true]
      exact lookupAssoc_setAssoc_ne _ _ _ _ h
    · simp [hts]

lemma lookupAssoc_foldl_checkinStep (now : Int) (cs : List CheckIn)
    (ps : List (String × PulseStats)) (pid : String) :
    lookupAssoc (cs.foldl (checkinStep now) ps) pid =
      (cs.filter fun c => c.pair_id == pid).foldl (recencyStep now) (lookupAssoc ps pid) := by
  induction cs generalizing ps with
  | nil => rfl
  | cons c cs ih =>
    rw [List.foldl_cons]
    by_cases hc : c.pair_id = pid
    · rw [List.filter_cons_of_pos (by simpa using hc), List.foldl_cons, ih]
      subst hc
      rw [lookupAssoc_checkinStep_self]
    · rw [List.filter_cons_of_neg (by simpa using hc), ih,
        lookupAssoc_checkinStep_ne now ps c pid (fun he => hc he.symm)]

lemma recencyStep_foldl (now : Int) (l : List CheckIn) (acc : Option Int) :
    l.foldl (recencyStep now) (acc.map (statsFor now)) =
      ((l.map CheckIn.timestamp).foldl maxStep acc).map (statsFor now) := by
  induction l generalizing acc with
  | nil => rfl
  | cons c l ih =>
    rw [List.map_cons, List.foldl_cons, List.foldl_cons]
    have hstep : recencyStep now (acc.map (statsFor now)) c =
        (maxStep acc c.timestamp).map (statsFor now) := by
      cases acc with
      | none => rfl
      | some m =>
        unfold recencyStep maxStep statsFor
        by_cases hlt : m < c.timestamp
        · simp [hlt]
        · simp [hlt]
    rw [hstep, ih]

lemma pairStats_lookup (now : Int) (cs : List CheckIn) (pid : String) :
    lookupAssoc (pairStatsOf now cs) pid = (maxTsOf cs pid).map (statsFor now) := by
  unfold pairStatsOf maxTsOf
  rw [lookupAssoc_foldl_checkinStep]
  exact recencyStep_foldl now _ none

lemma setAssoc_keys {β : Type} (ps : List (String × β)) (k : String) (v : β) :
    (setAssoc ps k v).map Prod.fst =
      if k ∈ ps.map Prod.fst then ps.map Prod.fst else ps.map Prod.fst ++ [k] := by
  induction ps with
  | nil => simp [setAssoc]
  | cons e rest ih =>
    by_cases he : e.1 = k
    · subst he
      cases e with
      | mk a b => simp [setAssoc]
    · have hne : ¬(k = e.1) := fun hh => he hh.symm
      by_cases hk : k ∈ rest.map Prod.fst
      · simp [setAssoc, he, ih, hk, hne]
      · simp [setAssoc, he, ih, hk, hne]

lemma keys_nodup_setAssoc {β : Type} (ps : List (String × β)) (k : String) (v : β)
    (h : (ps.map Prod.fst).Nodup) : ((setAssoc ps k v).map Prod.fst).Nodup := by
  rw [setAssoc_keys]
  by_cases hk : k ∈ ps.map Prod.fst
  · simpa [hk]
  · simp only [hk, if_false]
    exact (List.perm_append_singleton k _).nodup_iff.mpr (List.nodup_cons.mpr ⟨hk, h⟩)

lemma keys_nodup_checkinStep (now : Int) (ps : List (String × PulseStats)) (c : CheckIn)
    (h : (ps.map Prod.fst).Nodup) : ((checkinStep now ps c).map Prod.fst).Nodup := by
  unfold checkinStep
  cases lookupAssoc ps c.pair_id with
  | none => exact keys_nodup_setAssoc _ _ _ h
  | some st =>
    by_cases hts : st.lastCheckin < c.timestamp
    · simp only [hts, if_true]
      exact keys_nodup_setAssoc _ _ _ h
    · simpa [hts] using h

lemma keys_nodup_foldl_checkinStep (now : Int) (cs : List CheckIn) :
    ∀ ps, (ps.map Prod.fst).Nodup →
      ((cs.foldl (checkinStep now) ps).map Prod.fst).Nodup := by
  induction cs with
  | nil => exact fun _ h => h
  | cons c cs ih =>
    intro ps h
    rw [List.foldl_cons]
    exact ih _ (keys_nodup_checkinStep now ps c h)

lemma keys_nodup_pairStatsOf (now : Int) (cs : List CheckIn) :
    ((pairStatsOf now cs).map Prod.fst).Nodup :=
  keys_nodup_foldl_checkinStep now cs [] (by simp)

lemma keys_nodup_applyBalances (ps : List (String × PulseStats))
    (gs : List (String × List MessageRec)) (h : (ps.map Prod.fst).Nodup) :
    ((applyBalances ps gs).map Prod.fst).Nodup := by
  unfold applyBalances
  induction gs generalizing ps with
  | nil => exact h
  | cons g gs ih =>
    rw [List.foldl_cons]
    apply ih
    cases hl : lookupAssoc ps g.1 with
    | none => simpa [hl] using h
    | some st =>
      simp only [hl]
      exact keys_nodup_setAssoc _ _ _ h

lemma mem_iff_lookupAssoc {β : Type} (ps : List (String × β))
    (h : (ps.map Prod.fst).Nodup) (k : String) (v : β) :
    (k, v) ∈ ps ↔ lookupAssoc ps k = some v := by
  induction ps with
  | nil => simp [lookupAssoc_nil]
  | cons e rest ih =>
    obtain ⟨a, b⟩ := e
    have h1 : a ∉ rest.map Prod.fst := (List.nodup_cons.mp (by simpa using h)).1
    have h2 : (rest.map Prod.fst).Nodup := (List.nodup_cons.mp (by simpa using h)).2
    rw [lookupAssoc_cons]
    by_cases he : a = k
    · subst he
      rw [if_pos rfl]
      constructor
      · intro hm
        rcases List.mem_cons.mp hm with hm | hm
        · rw [((Prod.mk.injEq _ _ _ _).mp hm.symm).2]
        · exact absurd (List.mem_map_of_mem Prod.fst hm) h1
      · intro hs
        have : b = v := Option.some.inj hs
        subst this
        exact List.mem_cons_self _ _
    · simp only [if_neg he]
      rw [← ih h2]
      constructor
      · intro hm
        rcases List.mem_cons.mp hm with hm | hm
        · exact absurd ((Prod.mk.injEq _ _ _ _).mp hm.symm).1 he
        · exact hm
      · exact fun hm => List.mem_cons_of_mem _ hm

lemma lookupAssoc_applyBalances_daysSince (ps : List (String × PulseStats))
    (gs : List (String × List MessageRec)) (pid : String) :
    (lookupAssoc (applyBalances ps gs) pid).map PulseStats.daysSince =
      (lookupAssoc ps pid).map PulseStats.daysSince := by
  unfold applyBalances
  induction gs generalizing ps with
  | nil => rfl
  | cons g gs ih =>
    rw [List.foldl_cons, ih]
    cases hl : lookupAssoc ps g.1 with
    | none => simp [hl]
    | some st =>
      simp only [hl]
      by_cases hpg : pid = g.1
      · subst hpg
        rw [lookupAssoc_setAssoc_self, hl]
        rfl
      · rw [lookupAssoc_setAssoc_ne _ _ _ _ hpg]

lemma mem_dormantPairsOf (ps : List (String × PulseStats))
    (h : (ps.map Prod.fst).Nodup) (pid : String) (d : Int) :
    (pid, d) ∈ dormantPairsOf ps ↔
      (∃ st, lookupAssoc ps pid = some st ∧ st.daysSince = d) ∧ d > 14 := by
  unfold dormantPairsOf
  rw [List.mem_map]
  constructor
  · rintro ⟨e, he, heq⟩
    obtain ⟨hm, hgt⟩ := List.mem_filter.mp he
    obtain ⟨a, st⟩ := e
    have ha : a = pid := ((Prod.mk.injEq _ _ _ _).mp heq).1
    have hd : st.daysSince = d := ((Prod.mk.injEq _ _ _ _).mp heq).2
    subst ha
    refine ⟨⟨st, (mem_iff_lookupAssoc ps h _ _).mp hm, hd⟩, ?_⟩
    rw [← hd]
    simpa using hgt
  · rintro ⟨⟨st, hl, hd⟩, hgt⟩
    refine ⟨(pid, st), List.mem_filter.mpr ⟨(mem_iff_lookupAssoc ps h pid st).mpr hl, ?_⟩, ?_⟩
    · simp only [decide_eq_true_eq]
      rw [hd]
      exact hgt
    · rw [hd]

lemma foldl_maxStep_some (l : List Int) (m : Int) :
    l.foldl maxStep (some m) = some (l.foldl max m) := by
  induction l generalizing m with
  | nil => rfl
  | cons a l ih =>
    rw [List.foldl_cons, List.foldl_cons]
    have hstep : maxStep (some m) a = some (max m a) := by
      unfold maxStep
      by_cases hlt : m < a
      · simp [hlt, max_eq_right hlt.le]
      · simp [hlt, max_eq_left (not_lt.mp hlt)]
    rw [hstep, ih]

lemma foldl_maxStep_none (l : List Int) : l.foldl maxStep none = l.max? := by
  cases l with
  | nil => rfl
  | cons a l =>
    rw [List.foldl_cons, show maxStep none a = some a from rfl, foldl_maxStep_some]
    rfl

lemma exists_daysSince_iff (o1 o2 : Option PulseStats)
    (h : o1.map PulseStats.daysSince = o2.map PulseStats.daysSince) (d : Int) :
    (∃ st, o1 = some st ∧ st.daysSince = d) ↔ ∃ st, o2 = some st ∧ st.daysSince = d := by
  cases o1 <;> cases o2 <;> simp_all

/-- C8: a pair appears among the dormant pairs of `EngagementPulse.run`
exactly when it has at least one check-in and the floor-days since its
most recent (maximum-timestamp) check-in strictly exceed 14. -/
theorem c8_dormant_iff (now : Int) (checkins : List CheckIn) (messages : List MessageRec)
    (pid : String) (d : Int) :
    (pid, d) ∈ dormantPairsOf
        (applyBalances (pairStatsOf now checkins) (groupByPair messages)) ↔
      (∃ ts, ((checkins.filter fun c => c.pair_id == pid).map CheckIn.timestamp).max? =
          some ts ∧ d = daysSinceOf now ts) ∧ d > 14 := by
  rw [mem_dormantPairsOf _
    (keys_nodup_applyBalances _ _ (keys_nodup_pairStatsOf now checkins)) pid d]
  rw [exists_daysSince_iff _ _
    (lookupAssoc_applyBalances_daysSince (pairStatsOf now checkins) (groupByPair messages) pid) d]
  rw [pairStats_lookup]
  have hmax : maxTsOf checkins pid =
      ((checkins.filter fun c => c.pair_id == pid).map CheckIn.timestamp).max? :=
    foldl_maxStep_none _
  rw [← hmax]
  cases hmt : maxTsOf checkins pid with
  | none => simp
  | some ts => simp [statsFor, eq_comm]

/-- Witness for C8: a pair whose only check-in is exactly 15 days old is
dormant; at exactly 14 days it is not. -/
theorem c8_dormant_iff_witness :
    ("p001", (15 : Int)) ∈ dormantPairsOf
        (applyBalances (pairStatsOf (15 * msPerDay) [⟨"p001", 0, 7, 8, "n"⟩])
          (groupByPair [])) ∧
    ("p001", (14 : Int)) ∉ dormantPairsOf
        (applyBalances (pairStatsOf (14 * msPerDay) [⟨"p001", 0, 7, 8, "n"⟩])
          (groupByPair [])) := by
  constructor
  · exact (c8_dormant_iff (15 * msPerDay) [⟨"p001", 0, 7, 8, "n"⟩] [] "p001" 15).mpr
      ⟨⟨0, by decide, by decide⟩, by decide⟩
  · intro hmem
    have h := (c8_dormant_iff (14 * msPerDay) [⟨"p001", 0, 7, 8, "n"⟩] [] "p001" 14).mp hmem
    exact absurd h.2 (by decide)

lemma actPulse_reflection (env : AgentEnv) (decision : BrainDecision) (prompt : String) :
    ∀ r, (actPulse env decision prompt).1 = .pulse r →
      ((actPulse env decision prompt).2 = "needs improvement" ↔ isErrorPulse r = true) := by
  intro r hr
  unfold actPulse at hr ⊢
  simp only [] at hr
  injection hr with h
  rw [← h]
  cases hE : isErrorPulse (run env.pulseLoad env.now
      ⟨toolModeOf decision.action decision.mode, some env.limit,
        some (effPromptOf decision.prompt prompt)⟩)
  · simp [hE]
  · simp [hE]

lemma actTips_of_error (env : AgentEnv) (prompt : String) (composeFlag : Bool)
    (m hh : String) (htr : retrieve env.tipsLoad prompt = .error m hh) :
    actTips env prompt composeFlag = (.tips (.error m hh), "needs improvement") := by
  unfold actTips
  rw [htr]
  simp [isErrorTips]

lemma actTips_of_tips_nochain (env : AgentEnv) (prompt : String) (composeFlag : Bool)
    (hits : List RagHit) (htr : retrieve env.tipsLoad prompt = .tips hits)
    (hch : (composeFlag && !hits.isEmpty) = false) :
    actTips env prompt composeFlag = (.tips (.tips hits), "looks ok") := by
  unfold actTips
  rw [htr]
  simp [hch, isErrorTips]

lemma actTips_of_tips_chain_ok (env : AgentEnv) (prompt : String) (composeFlag : Bool)
    (hits : List RagHit) (cdata : ComposeData)
    (htr : retrieve env.tipsLoad prompt = .tips hits)
    (hch : (composeFlag && !hits.isEmpty) = true) (hcl : env.composeLoad = .ok cdata) :
    actTips env prompt composeFlag =
      (.tipsNudge (.tips hits) (parseNudge (compose cdata env.randIndex env.questionIndex
        (formatSummary (run env.pulseLoad env.now ⟨some "summary", none, none⟩))
        (formatHits env.fmtScore hits) env.pairId)), "looks ok") := by
  unfold actTips
  rw [htr]
  simp [hch, hcl, isErrorTips]

lemma actTips_of_tips_chain_error (env : AgentEnv) (prompt : String) (composeFlag : Bool)
    (hits : List RagHit) (msg : String)
    (htr : retrieve env.tipsLoad prompt = .tips hits)
    (hch : (composeFlag && !hits.isEmpty) = true) (hcl : env.composeLoad = .error msg) :
    actTips env prompt composeFlag = (.str ("Error: " ++ msg), "needs improvement") := by
  unfold actTips
  rw [htr]
  simp [hch, hcl]

lemma actCompose_ok (env : AgentEnv) (prompt : String) (cdata : ComposeData)
    (hcl : env.composeLoad = .ok cdata) : (actCompose env prompt).2 = "looks ok" := by
  unfold actCompose
  simp only [hcl]

lemma actCompose_error (env : AgentEnv) (prompt : String) (msg : String)
    (hcl : env.composeLoad = .error msg) :
    actCompose env prompt = (.str ("Error: " ++ msg), "needs improvement") := by
  unfold actCompose
  simp only [hcl]

/-- C1 amended: the engagement_pulse and mentor_tips branches set
`reflection = "needs improvement"` exactly when their observation is an
error-typed result, the unknown-tool branch and the caught compose-load
fault set it with a non-error/`Error:` string observation, and the
`compose_nudge` branch sets `"looks ok"` unconditionally — even when its
observation is an `Error:`-prefixed sentinel string; `RESPOND`/raw
actions are always `"looks ok"`. -/
theorem c1_reflection_spec (env : AgentEnv) (decision : BrainDecision) (prompt : String)
    (composeFlag : Bool) :
    (∀ r, (runAct env decision prompt composeFlag).1 = .pulse r →
      ((runAct env decision prompt composeFlag).2 = "needs improvement" ↔
        isErrorPulse r = true)) ∧
    (∀ r, (runAct env decision prompt composeFlag).1 = Observation.tips r →
      ((runAct env decision prompt composeFlag).2 = "needs improvement" ↔
        isErrorTips r = true)) ∧
    (∀ tr n, (runAct env decision prompt composeFlag).1 = .tipsNudge tr n →
      (runAct env decision prompt composeFlag).2 = "looks ok") ∧
    (strStarts "USE:" decision.action = true → toolOf decision.action = "compose_nudge" →
      ∀ cdata, env.composeLoad = .ok cdata →
        (runAct env decision prompt composeFlag).2 = "looks ok") ∧
    (strStarts "USE:" decision.action = true → toolOf decision.action = "compose_nudge" →
      ∀ msg, env.composeLoad = .error msg →
        runAct env decision prompt composeFlag =
          (.str ("Error: " ++ msg), "needs improvement")) ∧
    (strStarts "USE:" decision.action = true →
      toolOf decision.action ∉
        (["engagement_pulse", "mentor_tips", "compose_nudge", "echo"] : List String) →
      runAct env decision prompt composeFlag =
        (.str ("Unknown tool: " ++ toolOf decision.action), "needs improvement")) ∧
    (strStarts "USE:" decision.action = false →
      (runAct env decision prompt composeFlag).2 = "looks ok") := by
  by_cases hU : strStarts "USE:" decision.action = true
  · by_cases h1 : toolOf decision.action = "engagement_pulse"
    · have hr : runAct env decision prompt composeFlag = actPulse env decision prompt := by
        simp [runAct, hU, h1]
      rw [hr]
      refine ⟨actPulse_reflection env decision prompt, ?_, ?_, ?_, ?_, ?_, ?_⟩
      · intro r hrr
        simp [actPulse] at hrr
      · intro tr n hrr
        simp [actPulse] at hrr
      · intro _ hc
        rw [h1] at hc
        exact absurd hc (by decide)
      · intro _ hc
        rw [h1] at hc
        exact absurd hc (by decide)
      · intro _ hnot
        rw [h1] at hnot
        exact absurd (by decide) hnot
      · intro hF
        exact absurd hU (by simp [hF])
    · by_cases h2 : toolOf decision.action = "mentor_tips"
      · have hr : runAct env decision prompt composeFlag = actTips env prompt composeFlag := by
          simp [runAct, hU, h1, h2]
        have hshape : (∃ tr, actTips env prompt composeFlag =
              (.tips tr, if isErrorTips tr then "needs improvement" else "looks ok")) ∨
            (∃ tr n, actTips env prompt composeFlag = (.tipsNudge tr n, "looks ok")) ∨
            (∃ s, actTips env prompt composeFlag = (.str s, "needs improvement")) := by
          cases htr : retrieve env.tipsLoad prompt with
          | error m hh =>
            refine Or.inl ⟨.error m hh, ?_⟩
            rw [actTips_of_error env prompt composeFlag m hh htr]
            simp [isErrorTips]
          | tips hits =>
            by_cases hch : (composeFlag && !hits.isEmpty) = true
            · cases hcl : env.composeLoad with
              | error msg =>
                refine Or.inr (Or.inr ⟨"Error: " ++ msg, ?_⟩)
                rw [actTips_of_tips_chain_error env prompt composeFlag hits msg htr hch hcl]
              | ok cdata =>
                exact Or.inr (Or.inl ⟨.tips hits,
                  parseNudge (compose cdata env.randIndex env.questionIndex
                    (formatSummary (run env.pulseLoad env.now ⟨some "summary", none, none⟩))
                    (formatHits env.fmtScore hits) env.pairId),
                  actTips_of_tips_chain_ok env prompt composeFlag hits cdata htr hch hcl⟩)
            · refine Or.inl ⟨.tips hits, ?_⟩
              rw [actTips_of_tips_nochain env prompt composeFlag hits htr
                (by simpa using hch)]
              simp [isErrorTips]
        have hside : (strStarts "USE:" decision.action = true →
              toolOf decision.action = "compose_nudge" → ∀ cdata,
              env.composeLoad = .ok cdata →
              (runAct env decision prompt composeFlag).2 = "looks ok") ∧
            (strStarts "USE:" decision.action = true →
              toolOf decision.action = "compose_nudge" → ∀ msg,
              env.composeLoad = .error msg →
              runAct env decision prompt composeFlag =
                (.str ("Error: " ++ msg), "needs improvement")) ∧
            (strStarts "USE:" decision.action = true →
              toolOf decision.action ∉
                (["engagement_pulse", "mentor_tips", "compose_nudge", "echo"] :
                  List String) →
              runAct env decision prompt composeFlag =
                (.str ("Unknown tool: " ++ toolOf decision.action), "needs improvement")) ∧
            (strStarts "USE:" decision.action = false →
              (runAct env decision prompt composeFlag).2 = "looks ok") := by
          refine ⟨?_, ?_, ?_, ?_⟩
          · intro _ hc
            rw [h2] at hc
            exact absurd hc (by decide)
          · intro _ hc
            rw [h2] at hc
            exact absurd hc (by decide)
          · intro _ hnot
            rw [h2] at hnot
            exact absurd (by decide) hnot
          · intro hF
            exact absurd hU (by simp [hF])
        rcases hshape with ⟨tr, heq⟩ | ⟨tr, n, heq⟩ | ⟨s, heq⟩
        · refine ⟨?_, ?_, ?_, hside.1, hside.2.1, hside.2.2.1, hside.2.2.2⟩
          · intro r hrr
            rw [hr, heq] at hrr
            simp at hrr
          · intro r hrr
            rw [hr, heq] at hrr
            rw [hr, heq]
            simp only [] at hrr
            injection hrr with h
            rw [← h]
            cases hE : isErrorTips tr <;> simp [hE]
          · intro tr2 n2 hrr
            rw [hr, heq] at hrr
            simp at hrr
        · refine ⟨?_, ?_, ?_, hside.1, hside.2.1, hside.2.2.1, hside.2.2.2⟩
          · intro r hrr
            rw [hr, heq] at hrr
            simp at hrr
          · intro r hrr
            rw [hr, heq] at hrr
            simp at hrr
          · intro tr2 n2 hrr
            rw [hr, heq]
        · refine ⟨?_, ?_, ?_, hside.1, hside.2.1, hside.2.2.1, hside.2.2.2⟩
          · intro r hrr
            rw [hr, heq] at hrr
            simp at hrr
          · intro r hrr
            rw [hr, heq] at hrr
            simp at hrr
          · intro tr2 n2 hrr
            rw [hr, heq] at hrr
            simp at hrr
      · by_cases h3 : toolOf decision.action = "compose_nudge"
        · have hr : runAct env decision prompt composeFlag = actCompose env prompt := by
            simp [runAct, hU, h1, h2, h3]
          cases hcl : env.composeLoad with
          | error msg =>
            rw [hr, actCompose_error env prompt msg hcl]
            refine ⟨?_, ?_, ?_, ?_, ?_, ?_, ?_⟩
            · intro r hrr
              simp at hrr
            · intro r hrr
              simp at hrr
            · intro tr n hrr
              simp at hrr
            · intro _ _ cdata hcd
              exact Except.noConfusion hcd
            · intro _ _ msg2 hcd
              injection hcd with h
              rw [← h]
            · intro _ hnot
              rw [h3] at hnot
              exact absurd (by decide) hnot
            · intro hF
              exact absurd hU (by simp [hF])
          | ok cdata =>
            have hOK : (actCompose env prompt).2 = "looks ok" := actCompose_ok env prompt cdata hcl
            have hobs : ∃ s, (actCompose env prompt).1 = .str s := by
              unfold actCompose
              rw [hcl]
              exact ⟨_, rfl⟩
            obtain ⟨s, hs⟩ := hobs
            rw [hr]
            refine ⟨?_, ?_, ?_, ?_, ?_, ?_, ?_⟩
            · intro r hrr
              rw [hs] at hrr
              simp at hrr
            · intro r hrr
              rw [hs] at hrr
              simp at hrr
            · intro tr n hrr
              rw [hs] at hrr
              simp at hrr
            · intro _ _ cdata2 _
              exact hOK
            · intro _ _ msg hcd
              exact Except.noConfusion hcd
            · intro _ hnot
              rw [h3] at hnot
              exact absurd (by decide) hnot
            · intro hF
              exact absurd hU (by simp [hF])
        · by_cases h4 : toolOf decision.action = "echo"
          · have hr : runAct env decision prompt composeFlag =
                (.str ("Echo: " ++ prompt), "looks ok") := by
              simp [runAct, hU, h1, h2, h3, h4]
            rw [hr]
            refine ⟨?_, ?_, ?_, ?_, ?_, ?_, ?_⟩
            · intro r hrr
              simp at hrr
            · intro r hrr
              simp at hrr
            · intro tr n hrr
              simp at hrr
            · intro _ hc
              exact absurd hc h3
            · intro _ hc
              exact absurd hc h3
            · intro _ hnot
              rw [h4] at hnot
              exact absurd (by decide) hnot
            · intro hF
              exact absurd hU (by simp [hF])
          · have hr : runAct env decision prompt composeFlag =
                (.str ("Unknown tool: " ++ toolOf decision.action), "needs improvement") := by
              simp [runAct, hU, h1, h2, h3, h4]
            rw [hr]
            refine ⟨?_, ?_, ?_, ?_, ?_, ?_, ?_⟩
            · intro r hrr
              simp at hrr
            · intro r hrr
              simp at hrr
            · intro tr n hrr
              simp at hrr
            · intro _ hc
              exact absurd hc h3
            · intro _ hc
              exact absurd hc h3
            · intro _ _
              rfl
            · intro hF
              exact absurd hU (by simp [hF])
  · have hOK : (runAct env decision prompt composeFlag).2 = "looks ok" := by
      unfold runAct
      rw [if_neg hU]
      split_ifs <;> rfl
    have hobs : ∃ s, (runAct env decision prompt composeFlag).1 = .str s := by
      unfold runAct
      rw [if_neg hU]
      split_ifs <;> exact ⟨_, rfl⟩
    obtain ⟨s, hs⟩ := hobs
    refine ⟨?_, ?_, ?_, ?_, ?_, ?_, fun _ => hOK⟩
    · intro r hrr
      rw [hs] at hrr
      simp at hrr
    · intro r hrr
      rw [hs] at hrr
      simp at hrr
    · intro tr n hrr
      rw [hs] at hrr
      simp at hrr
    · intro hT
      exact absurd hT hU
    · intro hT
      exact absurd hT hU
    · intro hT
      exact absurd hT hU

/-- C1 counterexample: a `compose_nudge` invocation over an empty dataset
produces the sentinel observation `"Error: No pairing found"` with
`reflection = "looks ok"` — an `Error:`-prefixed observation that does not
co-occur with `"needs improvement"`. -/
theorem c1_counterexample :
    runAct ⟨.ok ⟨[], [], [], []⟩, .ok [], .ok ⟨[], [], []⟩, 0, 0, 0, fun _ => "", none, 5⟩
      ⟨"USE:compose_nudge", none, none⟩ "p" false =
      (.str "Error: No pairing found", "looks ok") := by
  have hU : (strStarts "USE:" "USE:compose_nudge") = true := by decide
  have ht : toolOf "USE:compose_nudge" = "compose_nudge" := by decide
  have hr : runAct ⟨.ok ⟨[], [], [], []⟩, .ok [], .ok ⟨[], [], []⟩, 0, 0, 0, fun _ => "", none, 5⟩
      ⟨"USE:compose_nudge", none, none⟩ "p" false =
      actCompose ⟨.ok ⟨[], [], [], []⟩, .ok [], .ok ⟨[], [], []⟩, 0, 0, 0, fun _ => "", none, 5⟩
        "p" := by
    simp [runAct, hU, ht]
  have hret : retrieve (.ok ([] : List Tip)) "p" = .tips [] := by
    simp [retrieve, findSimilar, docScores]
  have hcomp : compose ⟨[], [], []⟩ 0 0
      (formatSummary (run (.ok ⟨[], [], [], []⟩) 0 ⟨some "summary", none, none⟩))
      "No relevant tips found" none = "Error: No pairing found" := by decide
  rw [hr]
  unfold actCompose
  simp [hret, hcomp]

end MentorLoop
